import Mathlib

/-
Shallow embedding of the request-validation-and-dispatch core of the
`nexting` repository:

* `src/server/errors/server-error.ts`       — `ServerError` and `toJSON`
* `src/server/helpers/parse-server-error.ts` — `parseServerError`
* `src/server/helpers/common-handler.ts`     — `validateInput`, `handleError`
* `src/server/helpers/make-api-controller.ts` — `makeApiController`
* `makeServerAction` (defined next to `common-handler.ts`)

JavaScript "unknown" values handled by the code (request payloads, handler
results, thrown non-Error values, `meta`) are modelled by a type parameter
`α`; the code under scrutiny never inspects these values, so the embedding
is parametric in them.  Machine-relevant scalar distinctions that the wire
format does make (string / number / null / absent) are modelled by `WireVal`.
Thrown JavaScript values are modelled by `Thrown`, whose constructors mirror
the `instanceof` chain of `parseServerError` (custom parser result,
`ServerError`, `ZodError`, `Error`, anything else).  Fallible JS code is
modelled in `Except (Thrown α)`; the logger side effect is modelled by
returning the list of invocations of the logger's `error` hook.
-/

namespace Nexting

/-- Wire-level JSON scalar values appearing in serialized payload fields. -/
inductive WireVal : Type where
  | null : WireVal
  | str : String → WireVal
  | num : Nat → WireVal
deriving DecidableEq, Repr

/-- State of a `ServerError` after its constructor ran
(`src/server/errors/server-error.ts`): `code` and `status` are always set
(defaulted by the constructor), `uiMessage` and `meta` stay optional. -/
structure ServerError (α : Type) : Type where
  message : String
  code : String
  status : Nat
  uiMessage : Option String
  meta : Option α
deriving DecidableEq

/-- Argument record of the `ServerError` constructor (`ServerErrorProps`). -/
structure ServerErrorProps (α : Type) : Type where
  message : String
  uiMessage : Option String := none
  code : Option String := none
  status : Option Nat := none
  meta : Option α := none

/-- The `ServerError` constructor: `code` defaults to GENERIC_ERROR and
`status` to 500 (`StatusCodes.INTERNAL_SERVER_ERROR`). -/
def ServerError.make {α : Type} (props : ServerErrorProps α) : ServerError α :=
  { message := props.message
    code := props.code.getD "GENERIC_ERROR"
    status := props.status.getD 500
    uiMessage := props.uiMessage
    meta := props.meta }

/-- Return value of `ServerError.toJSON`: the four-field record
`{ message, code, status, uiMessage }`; `meta` is excluded.  `uiMessage` is
`none` when the error carries no uiMessage (JS `undefined`). -/
structure ErrorJSON : Type where
  message : String
  code : String
  status : Nat
  uiMessage : Option String
deriving DecidableEq, Repr

/-- `ServerError.toJSON` from `src/server/errors/server-error.ts`. -/
def ServerError.toJSON {α : Type} (e : ServerError α) : ErrorJSON :=
  { message := e.message, code := e.code, status := e.status, uiMessage := e.uiMessage }

/-- JSON.stringify view of an `ErrorJSON` record: the fields in declaration
order; a field whose value is `undefined` (`none`) is omitted from the
serialized output, exactly as JSON.stringify drops undefined properties. -/
def ErrorJSON.wireFields (j : ErrorJSON) : List (String × WireVal) :=
  [("message", WireVal.str j.message),
   ("code", WireVal.str j.code),
   ("status", WireVal.num j.status)] ++
  (match j.uiMessage with
   | some u => [("uiMessage", WireVal.str u)]
   | none => [])

/-- Classification of a thrown JavaScript value by the runtime checks of
`parseServerError` (`src/server/helpers/parse-server-error.ts`):
a `ServerError` instance, a `ZodError` (carrying its summary message),
any other `Error` instance (carrying its message), or a non-Error value
(string, number, null, undefined, plain object — carried opaquely). -/
inductive Thrown (α : Type) : Type where
  | serverError : ServerError α → Thrown α
  | zodError : String → Thrown α
  | genericError : String → Thrown α
  | nonError : α → Thrown α
deriving DecidableEq

/-- `ParseServerErrorOptions`: optional default overrides and an optional
custom classifier (`parser`); a missing field means the built-in default
applies (the destructuring defaults of `parseServerError`). -/
structure ParseServerErrorOptions (α : Type) : Type where
  defaultMessage : Option String := none
  defaultCode : Option String := none
  defaultStatus : Option Nat := none
  defaultUiMessage : Option String := none
  parser : Option (Thrown α → Option (ServerError α)) := none

/-- `parseServerError` from `src/server/helpers/parse-server-error.ts`:
ordered chain — custom parser result, `ServerError` pass-through, `ZodError`
(VALIDATION_ERROR / 400 / library message / default uiMessage), generic
`Error` (its message with defaulted code/status/uiMessage), otherwise the
configured `defaultMessage` (never the thrown value itself). -/
def parseServerError {α : Type} (error : Thrown α)
    (opts : ParseServerErrorOptions α) : ServerError α :=
  let defaultMessage := opts.defaultMessage.getD "An unexpected error occurred"
  let defaultCode := opts.defaultCode.getD "GENERIC_ERROR"
  let defaultStatus := opts.defaultStatus.getD 500
  let defaultUiMessage := opts.defaultUiMessage.getD "An unexpected error occurred"
  match opts.parser.bind (fun p => p error) with
  | some customError => customError
  | none =>
    match error with
    | .serverError e => e
    | .zodError message =>
        ServerError.make { message := message, code := some "VALIDATION_ERROR",
                           status := some 400, uiMessage := some defaultUiMessage }
    | .genericError message =>
        ServerError.make { message := message, code := some defaultCode,
                           status := some defaultStatus, uiMessage := some defaultUiMessage }
    | .nonError _ =>
        ServerError.make { message := defaultMessage, code := some defaultCode,
                           status := some defaultStatus, uiMessage := some defaultUiMessage }

/-- A Zod schema's parse capability: returns the parsed (possibly coerced)
value or throws an arbitrary value. -/
def Schema (α : Type) : Type := α → Except (Thrown α) α

/-- `ValidationResult` from `src/server/helpers/common-handler.ts`:
`{ isValid, data?, error? }`. -/
structure ValidationResult (α : Type) : Type where
  isValid : Bool
  data : Option α := none
  error : Option ErrorJSON := none
deriving DecidableEq

/-- `validateInput` from `src/server/helpers/common-handler.ts`.  With no
schema the input is forwarded unchanged; with a schema, `schema.parse` runs
inside a try/catch and a rejection is normalized through `parseServerError`
called with no options (so only the built-in defaults apply). -/
def validateInput {α : Type} (input : α) (schema : Option (Schema α)) :
    ValidationResult α :=
  match schema with
  | none => { isValid := true, data := some input }
  | some parse =>
    match parse input with
    | .ok data => { isValid := true, data := some data }
    | .error err =>
        { isValid := false,
          error := some ((parseServerError err ({} : ParseServerErrorOptions α)).toJSON) }

/-- `CommonHandlerOptions`: the optional error-normalization overrides.
The logger is modelled by the invocation list returned by `handleError`. -/
structure CommonHandlerOptions (α : Type) : Type where
  error : Option (ParseServerErrorOptions α) := none

/-- `CommonHandlerOptionsWithSchema`: adds the optional `validationSchema`
slot; `none` models an options object with no `validationSchema` key. -/
structure CommonHandlerOptionsWithSchema (α : Type) extends CommonHandlerOptions α : Type where
  validationSchema : Option (Schema α) := none

/-- One invocation of the configured logger's `error` hook:
the `(message, payload)` pair it was called with. -/
abbrev LogCall := String × ErrorJSON

/-- `handleError` from `src/server/helpers/common-handler.ts`: normalize via
`parseServerError` with the configured error options, call
`logger.error(parsed.message, parsed)` exactly once, return the payload.
The second component is the list of logger invocations performed. -/
def handleError {α : Type} (error : Thrown α) (options : CommonHandlerOptions α) :
    ErrorJSON × List LogCall :=
  let parsedError := (parseServerError error (options.error.getD {})).toJSON
  (parsedError, [(parsedError.message, parsedError)])

/-- Body of a transport `Response`: either serialized handler data or a
serialized error record. -/
inductive ResponseBody (α : Type) : Type where
  | data : α → ResponseBody α
  | errorJson : ErrorJSON → ResponseBody α
deriving DecidableEq

/-- A transport response: HTTP status plus optional body. -/
structure HttpResponse (α : Type) : Type where
  status : Nat
  body : Option (ResponseBody α)
deriving DecidableEq

/-- The two controller-function shapes of `makeApiController`'s overloads:
with validation `(props, context) => result`, without `(context) => result`.
The context is the request object, carried opaquely. -/
inductive ApiControllerFn (α : Type) : Type where
  | withValidation : (α → α → Except (Thrown α) α) → ApiControllerFn α
  | withoutValidation : (α → Except (Thrown α) α) → ApiControllerFn α

/-- Invoke a controller function with the validated props and the request
context; a `withoutValidation` function only receives the context. -/
def ApiControllerFn.invoke {α : Type} (fn : ApiControllerFn α) (props context : α) :
    Except (Thrown α) α :=
  match fn with
  | .withValidation f => f props context
  | .withoutValidation f => f context

/-- `makeApiController` from `src/server/helpers/make-api-controller.ts`
(the implementation present in the source tree): the returned callable
validates the extra `input` argument against `options.validationSchema`
when one is configured, returning the validation error with its status
(`|| 400`) on failure; otherwise it invokes the controller function and
answers `Response.json(result, { status: StatusCodes.OK })` — status is the
constant 200 and the whole result is the body.  Every thrown value is
caught, routed through `handleError` and answered with the parsed error's
status (`|| 500`).  The `Option.getD` fallbacks stand for the non-null
assertions `validation.data!` / `validation.error`; `validateInput` never
leaves those fields empty on the corresponding branch, so they are dead. -/
def makeApiController {α : Type} (controllerFn : ApiControllerFn α)
    (options : CommonHandlerOptionsWithSchema α) :
    α → α → HttpResponse α × List LogCall :=
  fun request input =>
    match options.validationSchema with
    | some schema =>
      let validation := validateInput input (some schema)
      if validation.isValid then
        match controllerFn.invoke (validation.data.getD input) request with
        | .ok result => ({ status := 200, body := some (ResponseBody.data result) }, [])
        | .error err =>
          let parsed := handleError err options.toCommonHandlerOptions
          ({ status := if parsed.1.status = 0 then 500 else parsed.1.status,
             body := some (ResponseBody.errorJson parsed.1) }, parsed.2)
      else
        match validation.error with
        | some e =>
          ({ status := if e.status = 0 then 400 else e.status,
             body := some (ResponseBody.errorJson e) }, [])
        | none => ({ status := 400, body := none }, [])
    | none =>
      match controllerFn.invoke request request with
      | .ok result => ({ status := 200, body := some (ResponseBody.data result) }, [])
      | .error err =>
        let parsed := handleError err options.toCommonHandlerOptions
        ({ status := if parsed.1.status = 0 then 500 else parsed.1.status,
           body := some (ResponseBody.errorJson parsed.1) }, parsed.2)

/-- The programmatic envelope produced by `makeServerAction` via the
`async-xtate` constructors: `makeAsyncSuccessState` tags the handler result
with status 'success', `makeAsyncErrorState` tags the serialized error with
status 'error'. -/
inductive AsyncState (α : Type) : Type where
  | success : α → AsyncState α
  | error : ErrorJSON → AsyncState α
deriving DecidableEq

/-- The two action-function shapes of `makeServerAction`'s overloads. -/
inductive ActionFn (α : Type) : Type where
  | withValidation : (α → Except (Thrown α) α) → ActionFn α
  | withoutValidation : (Unit → Except (Thrown α) α) → ActionFn α

/-- Invoke an action function; a `withoutValidation` action takes no
argument at all. -/
def ActionFn.invoke {α : Type} (fn : ActionFn α) (props : α) : Except (Thrown α) α :=
  match fn with
  | .withValidation f => f props
  | .withoutValidation f => f ()

/-- The try-block of `makeServerAction`: validate when a schema is
configured, short-circuit a failed validation into the error envelope,
otherwise invoke the action (whose thrown values propagate out of the
try-block).  The `Option.getD` fallback stands for `validation.error!`,
dead because `validateInput` always sets `error` on the invalid branch. -/
def serverActionTryBlock {α : Type} (actionFn : ActionFn α)
    (options : CommonHandlerOptionsWithSchema α) (props : α) :
    Except (Thrown α) (AsyncState α) :=
  match options.validationSchema with
  | some schema =>
    let validation := validateInput props (some schema)
    if validation.isValid then do
      let result ← actionFn.invoke (validation.data.getD props)
      pure (AsyncState.success result)
    else
      pure (AsyncState.error (validation.error.getD
        { message := "", code := "", status := 0, uiMessage := none }))
  | none => do
    let result ← actionFn.invoke props
    pure (AsyncState.success result)

/-- `makeServerAction` (defined next to `common-handler.ts`): the returned
callable runs the try-block and converts any value thrown inside it into
the error envelope through `handleError`; it never re-throws. -/
def makeServerAction {α : Type} (actionFn : ActionFn α)
    (options : CommonHandlerOptionsWithSchema α) : α → AsyncState α × List LogCall :=
  fun props =>
    match serverActionTryBlock actionFn options props with
    | .ok state => (state, [])
    | .error err =>
      let parsed := handleError err options.toCommonHandlerOptions
      (AsyncState.error parsed.1, parsed.2)

/-- Modelled from the spec: options of the multi-slot `makeApiController`
variant (`bodySchema` / `querySchema` / `paramsSchema`).  The implementation
of this variant is not among the source files — only its tests, its README
declarations and its callers are — so it is modelled from spec §4.4/§4.5. -/
structure MakeApiControllerOptions (α : Type) extends CommonHandlerOptions α : Type where
  bodySchema : Option (Schema α) := none
  querySchema : Option (Schema α) := none
  paramsSchema : Option (Schema α) := none

/-- `ApiMakerResponse` from `src/server/types/response-types.ts`: handler
result data plus an optional declared status. -/
structure ApiMakerResponse (α : Type) : Type where
  data : α
  status : Option Nat := none
deriving DecidableEq

/-- The argument record passed to a multi-slot handler: a slot is `some`
exactly when a schema was configured for it. -/
structure DispatchArguments (α : Type) : Type where
  query : Option α := none
  body : Option α := none
  params : Option α := none
deriving DecidableEq

/-- Modelled from the spec: one SchemaGate run of §4.3/§4.4 for a single
slot, delegating to the repository's `validateInput`.  `ok none` means the
slot has no schema and contributes no argument; `error` carries the
normalized validation failure.  The `Option.getD` fallback is dead as in
`validateInput`. -/
def validateSlot {α : Type} (raw : α) (schema : Option (Schema α)) :
    Except ErrorJSON (Option α) :=
  match schema with
  | none => Except.ok none
  | some s =>
    let validation := validateInput raw (some s)
    if validation.isValid then Except.ok validation.data
    else Except.error (validation.error.getD
      { message := "", code := "", status := 0, uiMessage := none })

/-- The transport response produced for a failed validation gate: the
error's status (`|| 400`) with the serialized error as body. -/
def validationFailureResponse {α : Type} (e : ErrorJSON) : HttpResponse α :=
  { status := if e.status = 0 then 400 else e.status,
    body := some (ResponseBody.errorJson e) }

/-- Modelled from the spec: the multi-slot `makeApiController` dispatcher,
absent from the source files (only its tests, README declarations and
callers are present).  Per §4.4 the configured slots are validated in the
fixed order query, then body, then params, short-circuiting on the first
configured-and-failing slot; on all-pass the handler receives exactly the
validated slots and per §4.5 its declared status (default 200) becomes the
response status, a 204 result suppressing the body entirely; thrown values
are normalized through `handleError` as in the sibling dispatchers. -/
def runMultiApiController {α : Type}
    (handler : DispatchArguments α → α → Except (Thrown α) (ApiMakerResponse α))
    (options : MakeApiControllerOptions α)
    (rawQuery rawBody rawParams request : α) : HttpResponse α × List LogCall :=
  match validateSlot rawQuery options.querySchema with
  | .error e => (validationFailureResponse e, [])
  | .ok q =>
    match validateSlot rawBody options.bodySchema with
    | .error e => (validationFailureResponse e, [])
    | .ok b =>
      match validateSlot rawParams options.paramsSchema with
      | .error e => (validationFailureResponse e, [])
      | .ok p =>
        match handler { query := q, body := b, params := p } request with
        | .ok r =>
          let st := r.status.getD 200
          ({ status := st,
             body := if st = 204 then none else some (ResponseBody.data r.data) }, [])
        | .error err =>
          let parsed := handleError err options.toCommonHandlerOptions
          ({ status := if parsed.1.status = 0 then 500 else parsed.1.status,
             body := some (ResponseBody.errorJson parsed.1) }, parsed.2)

/-- C9: validating with no schema configured is the identity gate: for every
input value the result is a valid outcome whose data is the input forwarded
unchanged, with no error. -/
theorem c9_no_schema_passthrough {α : Type} (input : α) :
    validateInput input none =
      { isValid := true, data := some input, error := none } := rfl

/-- C10: validateInput is total — for every input and every schema,
including schemas whose parse throws an arbitrary (even non-Error) value,
it returns normally with either isValid true and a data value, or isValid
false and a normalized error record; never both, never neither, and the
throwing branch of the schema never surfaces at the interface. -/
theorem c10_validateInput_total {α : Type} (input : α) (schema : Option (Schema α)) :
    ((validateInput input schema).isValid = true ∧
     (validateInput input schema).error = none ∧
     (validateInput input schema).data.isSome = true) ∨
    ((validateInput input schema).isValid = false ∧
     (validateInput input schema).data = none ∧
     (validateInput input schema).error.isSome = true) := by
  cases schema with
  | none => exact Or.inl ⟨rfl, rfl, rfl⟩
  | some s =>
    cases h : s input with
    | ok d => exact Or.inl (by simp [validateInput, h])
    | error t => exact Or.inr (by simp [validateInput, h])

/-- C4: a non-Error thrown value is normalized to the configured
defaultMessage, and the message is independent of the thrown value: two
normalizations differing only in the non-Error thrown value produce the
same message, so no content of the thrown value leaks into it. -/
theorem c4_non_error_message_independent {α : Type}
    (opts : ParseServerErrorOptions α) (v w : α)
    (hp : opts.parser = none) :
    (parseServerError (Thrown.nonError v) opts).message =
      opts.defaultMessage.getD "An unexpected error occurred" ∧
    (parseServerError (Thrown.nonError v) opts).message =
      (parseServerError (Thrown.nonError w) opts).message := by
  constructor <;> simp [parseServerError, hp, ServerError.make]

/-- Witness for C4: with defaultMessage "Custom default" configured, a
thrown string payload never reaches the message and two different payloads
give the same message. -/
theorem c4_witness :
    (parseServerError (α := String) (Thrown.nonError "super secret payload")
      { defaultMessage := some "Custom default" }).message =
      (some "Custom default").getD "An unexpected error occurred" ∧
    (parseServerError (α := String) (Thrown.nonError "super secret payload")
      { defaultMessage := some "Custom default" }).message =
      (parseServerError (α := String) (Thrown.nonError "12345")
        { defaultMessage := some "Custom default" }).message :=
  c4_non_error_message_independent
    { defaultMessage := some "Custom default" } "super secret payload" "12345" rfl

/-- C6 counterexample: a ServerError built without a uiMessage serializes
to only three wire fields — the uiMessage key is dropped the way
JSON.stringify drops an undefined property — and not to four fields with
uiMessage null, refuting the claim as stated. -/
theorem c6_counterexample :
    (ServerError.make (α := Unit) { message := "m" }).toJSON.wireFields ≠
      [("message", WireVal.str "m"), ("code", WireVal.str "GENERIC_ERROR"),
       ("status", WireVal.num 500), ("uiMessage", WireVal.null)] := by
  decide

/-- C6 amended: serialization produces the fields message, code, status in
that order, with code and status defaulted by the constructor, followed by
uiMessage exactly when one was supplied at construction; when none was
supplied the uiMessage key is omitted from the wire record, not null. -/
theorem c6_amended_wire_fields {α : Type} (props : ServerErrorProps α) :
    (ServerError.make props).toJSON.wireFields =
      [("message", WireVal.str props.message),
       ("code", WireVal.str (props.code.getD "GENERIC_ERROR")),
       ("status", WireVal.num (props.status.getD 500))] ++
      (match props.uiMessage with
       | some u => [("uiMessage", WireVal.str u)]
       | none => []) := by
  cases h : props.uiMessage <;>
    simp [ServerError.make, ServerError.toJSON, ErrorJSON.wireFields, h]

/-- C5: the makeApiController implementation in the source tree ignores the
handler-declared status and always serializes a body — a handler returning
a result that declares status 204 with null data is answered with HTTP 200
and the whole result object as body, contradicting the repository's own
tests, which require status 204 and an empty body. -/
theorem c5_code_divergence :
    makeApiController (α := List (String × WireVal))
      (ApiControllerFn.withoutValidation
        (fun _ => Except.ok [("data", WireVal.null), ("status", WireVal.num 204)]))
      {} [] [] =
      ({ status := 200,
         body := some (ResponseBody.data
           [("data", WireVal.null), ("status", WireVal.num 204)]) },
       []) := rfl

/-- C2 counterexample: with defaultUiMessage configured as "Please fix the
form", a schema rejection is still answered with uiMessage "An unexpected
error occurred" — validateInput does not forward the configured error
options to parseServerError — so the claim as stated fails. -/
theorem c2_counterexample :
    makeApiController (α := String)
      (ApiControllerFn.withValidation (fun _ _ => Except.ok "unused"))
      { error := some { defaultUiMessage := some "Please fix the form" },
        validationSchema := some (fun _ => Except.error (Thrown.zodError "Invalid input")) }
      "req" "inp" =
      ({ status := 400,
         body := some (ResponseBody.errorJson
           { message := "Invalid input", code := "VALIDATION_ERROR",
             status := 400, uiMessage := some "An unexpected error occurred" }) }, []) ∧
    ("An unexpected error occurred" : String) ≠ "Please fix the form" :=
  ⟨rfl, by decide⟩

/-- C2 amended: when the configured schema rejects, the dispatch terminates
with the validation-error code VALIDATION_ERROR, status 400 and the
validation library's own message, but its uiMessage is always the built-in
default "An unexpected error occurred", regardless of any configured
defaultUiMessage, because validateInput invokes the normalizer without the
configured options; no logger call is made on this path. -/
theorem c2_amended_validation_error_shape {α : Type}
    (g : α → α → Except (Thrown α) α)
    (options : CommonHandlerOptionsWithSchema α)
    (s : Schema α) (request input : α) (m : String)
    (hs : options.validationSchema = some s)
    (hr : s input = Except.error (Thrown.zodError m)) :
    makeApiController (ApiControllerFn.withValidation g) options request input =
      ({ status := 400,
         body := some (ResponseBody.errorJson
           { message := m, code := "VALIDATION_ERROR", status := 400,
             uiMessage := some "An unexpected error occurred" }) }, []) := by
  simp [makeApiController, validateInput, hs, hr, parseServerError, ServerError.make,
        ServerError.toJSON]

/-- Witness for C2 amended: a concrete rejecting schema with a configured
defaultUiMessage still yields the built-in default uiMessage. -/
theorem c2_amended_witness :
    makeApiController (α := String)
      (ApiControllerFn.withValidation (fun _ _ => Except.ok "unused"))
      { error := some { defaultUiMessage := some "Please fix the form" },
        validationSchema := some (fun _ => Except.error (Thrown.zodError "Invalid input")) }
      "req" "inp" =
      ({ status := 400,
         body := some (ResponseBody.errorJson
           { message := "Invalid input", code := "VALIDATION_ERROR",
             status := 400, uiMessage := some "An unexpected error occurred" }) }, []) :=
  c2_amended_validation_error_shape (fun _ _ => Except.ok "unused")
    { error := some { defaultUiMessage := some "Please fix the form" },
      validationSchema := some (fun _ => Except.error (Thrown.zodError "Invalid input")) }
    (fun _ => Except.error (Thrown.zodError "Invalid input")) "req" "inp" "Invalid input"
    rfl rfl

/-- C3: a handler-thrown ServerError with custom code, status and uiMessage
passes through the normalizer unchanged (no custom parser configured), and
the transport response carries exactly the thrown status as HTTP status and
exactly the thrown message, code, status and uiMessage in its body. -/
theorem c3_server_error_passthrough {α : Type}
    (e : ServerError α) (options : CommonHandlerOptionsWithSchema α)
    (request input : α) (u : String)
    (hs : 0 < e.status)
    (hp : (options.error.getD {}).parser = none)
    (hv : options.validationSchema = none)
    (hu : e.uiMessage = some u) :
    parseServerError (Thrown.serverError e) (options.error.getD {}) = e ∧
    makeApiController
        (ApiControllerFn.withoutValidation (fun _ => Except.error (Thrown.serverError e)))
        options request input =
      ({ status := e.status,
         body := some (ResponseBody.errorJson
           { message := e.message, code := e.code, status := e.status,
             uiMessage := some u }) },
       [(e.message,
         { message := e.message, code := e.code, status := e.status,
           uiMessage := some u })]) := by
  have hpe : parseServerError (Thrown.serverError e) (options.error.getD {}) = e := by
    simp [parseServerError, hp]
  have hns : e.status ≠ 0 := Nat.pos_iff_ne_zero.mp hs
  refine ⟨hpe, ?_⟩
  simp [makeApiController, hv, ApiControllerFn.invoke, handleError, hpe,
        ServerError.toJSON, hu, hns]

/-- Witness for C3: a thrown NOT_FOUND ServerError surfaces with status 404
and its exact message, code, status and uiMessage in the body. -/
theorem c3_witness :
    parseServerError (α := Unit)
      (Thrown.serverError
        { message := "not found", code := "NOT_FOUND", status := 404,
          uiMessage := some "missing", meta := none })
      (({} : CommonHandlerOptionsWithSchema Unit).error.getD {}) =
      { message := "not found", code := "NOT_FOUND", status := 404,
        uiMessage := some "missing", meta := none } ∧
    makeApiController (α := Unit)
      (ApiControllerFn.withoutValidation (fun _ => Except.error (Thrown.serverError
        { message := "not found", code := "NOT_FOUND", status := 404,
          uiMessage := some "missing", meta := none })))
      {} () () =
      ({ status := 404,
         body := some (ResponseBody.errorJson
           { message := "not found", code := "NOT_FOUND", status := 404,
             uiMessage := some "missing" }) },
       [("not found",
         { message := "not found", code := "NOT_FOUND", status := 404,
           uiMessage := some "missing" })]) :=
  c3_server_error_passthrough
    { message := "not found", code := "NOT_FOUND", status := 404,
      uiMessage := some "missing", meta := none }
    {} () () "missing" (by decide) rfl rfl rfl

/-- C7: the callable produced by makeServerAction always settles to exactly
one of the two envelope branches — success with the handler result or error
with the serialized StructuredError — and never rejects: every value thrown
inside the try-block is intercepted and returned as the error envelope. -/
theorem c7_always_settles {α : Type} (actionFn : ActionFn α)
    (options : CommonHandlerOptionsWithSchema α) (props : α) :
    ((∃ d logs, makeServerAction actionFn options props = (AsyncState.success d, logs)) ∨
     (∃ e logs, makeServerAction actionFn options props = (AsyncState.error e, logs))) ∧
    (∀ t, serverActionTryBlock actionFn options props = Except.error t →
      makeServerAction actionFn options props =
        (AsyncState.error (handleError t options.toCommonHandlerOptions).1,
         (handleError t options.toCommonHandlerOptions).2)) := by
  constructor
  · cases h : serverActionTryBlock actionFn options props with
    | ok state =>
      cases state with
      | success d => exact Or.inl ⟨d, [], by simp [makeServerAction, h]⟩
      | error e => exact Or.inr ⟨e, [], by simp [makeServerAction, h]⟩
    | error t =>
      exact Or.inr ⟨(handleError t options.toCommonHandlerOptions).1,
        (handleError t options.toCommonHandlerOptions).2, by simp [makeServerAction, h]⟩
  · intro t ht
    simp [makeServerAction, ht]

/-- Witness for C7: an action that throws a plain Error settles to the
error envelope carrying the normalized payload, without rejecting. -/
theorem c7_witness :
    makeServerAction (α := String)
      (ActionFn.withoutValidation (fun _ => Except.error (Thrown.genericError "boom")))
      {} "x" =
      (AsyncState.error
        (handleError (Thrown.genericError "boom") ({} : CommonHandlerOptions String)).1,
       (handleError (Thrown.genericError "boom") ({} : CommonHandlerOptions String)).2) :=
  (c7_always_settles
    (ActionFn.withoutValidation (fun _ => Except.error (Thrown.genericError "boom")))
    {} "x").2 (Thrown.genericError "boom") rfl

/-- C8 counterexample: a dispatch that fails at the validation gate
terminates with the error response and an empty logger-invocation list —
zero calls, not exactly one — refuting the claim that every Failed terminal
transition fires the logger hook once. -/
theorem c8_counterexample :
    makeApiController (α := String)
      (ApiControllerFn.withValidation (fun _ _ => Except.ok "unused"))
      { validationSchema := some (fun _ => Except.error (Thrown.zodError "bad query")) }
      "req" "inp" =
      ({ status := 400,
         body := some (ResponseBody.errorJson
           { message := "bad query", code := "VALIDATION_ERROR", status := 400,
             uiMessage := some "An unexpected error occurred" }) }, []) ∧
    ([] : List LogCall).length = 0 :=
  ⟨rfl, rfl⟩

/-- C8 amended: the configured logger's error hook is invoked exactly once,
with the normalized StructuredError payload, when a dispatch fails because
a thrown value reached the catch boundary; it is never invoked on a
successful dispatch, and (per the counterexample) never on a
validation-gate failure. -/
theorem c8_amended_logging {α : Type}
    (options : CommonHandlerOptionsWithSchema α) (f : α → Except (Thrown α) α)
    (request input : α) (hv : options.validationSchema = none) :
    (∀ t, f request = Except.error t →
      (makeApiController (ApiControllerFn.withoutValidation f) options request input).2 =
        [((handleError t options.toCommonHandlerOptions).1.message,
          (handleError t options.toCommonHandlerOptions).1)]) ∧
    (∀ r, f request = Except.ok r →
      (makeApiController (ApiControllerFn.withoutValidation f) options request input).2 =
        []) := by
  constructor
  · intro t ht
    simp [makeApiController, hv, ApiControllerFn.invoke, ht, handleError]
  · intro r hr
    simp [makeApiController, hv, ApiControllerFn.invoke, hr]

/-- Witness for C8 amended: a handler that throws a plain Error triggers
exactly one logger invocation with the normalized payload. -/
theorem c8_witness :
    (makeApiController (α := String)
      (ApiControllerFn.withoutValidation (fun _ => Except.error (Thrown.genericError "boom")))
      {} "req" "inp").2 =
      [((handleError (Thrown.genericError "boom") ({} : CommonHandlerOptions String)).1.message,
        (handleError (Thrown.genericError "boom") ({} : CommonHandlerOptions String)).1)] :=
  (c8_amended_logging {} (fun _ => Except.error (Thrown.genericError "boom"))
    "req" "inp" rfl).1 (Thrown.genericError "boom") rfl

/-- C1: when both a query schema and a body schema are configured and both
reject their raw inputs, the dispatcher returns the normalized
query-validation error — the slots are validated in the fixed order query,
then body, then params, short-circuiting on the first configured-and-failing
slot — and the body error never surfaces: the result does not depend on the
body schema's thrown value at all. -/
theorem c1_query_error_precedes_body {α : Type}
    (handler : DispatchArguments α → α → Except (Thrown α) (ApiMakerResponse α))
    (options : MakeApiControllerOptions α)
    (rawQuery rawBody rawParams request : α)
    (qs bs : Schema α) (tq tb : Thrown α)
    (hq : options.querySchema = some qs) (hqe : qs rawQuery = Except.error tq)
    (hb : options.bodySchema = some bs) (hbe : bs rawBody = Except.error tb) :
    runMultiApiController handler options rawQuery rawBody rawParams request =
      (validationFailureResponse
        ((parseServerError tq ({} : ParseServerErrorOptions α)).toJSON), []) := by
  simp [runMultiApiController, validateSlot, validateInput, hq, hqe]

/-- Witness for C1: with concrete query and body schemas that both reject,
the dispatch returns the query error. -/
theorem c1_witness :
    runMultiApiController (α := String)
      (fun _ _ => Except.ok { data := "ok" })
      { querySchema := some (fun _ => Except.error (Thrown.zodError "query invalid")),
        bodySchema := some (fun _ => Except.error (Thrown.zodError "body invalid")) }
      "q" "b" "p" "req" =
      (validationFailureResponse
        ((parseServerError (Thrown.zodError "query invalid")
          ({} : ParseServerErrorOptions String)).toJSON), []) :=
  c1_query_error_precedes_body (fun _ _ => Except.ok { data := "ok" })
    { querySchema := some (fun _ => Except.error (Thrown.zodError "query invalid")),
      bodySchema := some (fun _ => Except.error (Thrown.zodError "body invalid")) }
    "q" "b" "p" "req"
    (fun _ => Except.error (Thrown.zodError "query invalid"))
    (fun _ => Except.error (Thrown.zodError "body invalid"))
    (Thrown.zodError "query invalid") (Thrown.zodError "body invalid")
    rfl rfl rfl rfl

end Nexting
